import Mathlib

/-!
Verification of the status-resolver route of HlivePlayer16
(`src/app/api/status/route.ts`).

The route probes five fixed upstream endpoints in order, parses four
response shapes (A: statistics stream list, B: flat stats JSON,
C: legacy comma-separated text, D: icecast status JSON), and returns a
normalized envelope.  The embedding below mirrors the JavaScript
semantics the handler relies on: nullish coalescing, truthy `||`,
`Number(...)` coercion, property access throwing on nullish receivers,
and the loop's record-error-and-continue behaviour.
-/

set_option maxHeartbeats 1000000
set_option maxRecDepth 8192

namespace HlivePlayer

/-- A JavaScript number produced by `Number(...)` coercion: a finite
rational, NaN, or a signed infinity (the result of the `Infinity`
literal or of a decimal numeral overflowing the double range). -/
inductive JSNum where
  | num (q : ℚ)
  | nan
  | inf
  | ninf
  deriving DecidableEq, Repr

/-- An untyped JSON/JavaScript value as seen by the route handler.
`undef` stands for JavaScript `undefined` (an absent property). -/
inductive JVal where
  | null
  | undefined
  | bool (b : Bool)
  | num (q : ℚ)
  | str (s : String)
  | arr (xs : List JVal)
  | obj (fields : List (String × JVal))

inductive Status where
  | online
  | offline
  deriving DecidableEq, Repr

/-- A thrown JavaScript error: class name and message.  `String(e)`
renders as `name ++ ": " ++ message`. -/
structure JErr where
  name : String
  message : String
  deriving DecidableEq, Repr

/-- JavaScript nullish test (`v === null || v === undefined`). -/
def isNullish : JVal → Bool
  | .null => true
  | .undefined => true
  | _ => false

/-- JavaScript truthiness. -/
def truthy : JVal → Bool
  | .null => false
  | .undefined => false
  | .bool b => b
  | .num q => q != 0
  | .str s => s != ""
  | .arr _ => true
  | .obj _ => true

/-- JavaScript `a || b`. -/
def jsOr (a b : JVal) : JVal := if truthy a then a else b

/-- JavaScript `a ?? b`. -/
def nOr (a b : JVal) : JVal := if isNullish a then b else a

/-- Property lookup on an object's field list; an absent key is
`undefined`.  (Payloads built below never repeat a key.) -/
def jLookup : List (String × JVal) → String → JVal
  | [], _ => .undefined
  | (k, v) :: rest, key => if k = key then v else jLookup rest key

/-- Total property access, as in optional chaining `v?.k`: nullish
receivers and non-objects yield `undefined`. -/
def jGetD : JVal → String → JVal
  | .obj fs, k => jLookup fs k
  | _, _ => .undefined

/-- The TypeError a property read on a nullish receiver throws. -/
def typeErrorOf : JVal → JErr
  | .undefined => ⟨"TypeError", "Cannot read properties of undefined"⟩
  | _ => ⟨"TypeError", "Cannot read properties of null"⟩

/-- Value of a string of decimal digits. -/
def digitsToNat (cs : List Char) : Nat :=
  cs.foldl (fun a c => a * 10 + (c.toNat - 48)) 0

/-- The value of an exponent suffix's digit string applied to a parsed
mantissa held as a numerator/denominator pair of naturals (`none` when
the exponent digits are missing or malformed). -/
def expVal (n d : ℕ) (neg : Bool) (ds : List Char) : Option (ℕ × ℕ) :=
  if ds.isEmpty || !ds.all (·.isDigit) then none
  else if neg then some (n, d * 10 ^ digitsToNat ds)
  else some (n * 10 ^ digitsToNat ds, d)

/-- An optional `e`/`E` exponent suffix with optional sign after the
mantissa; anything else trailing makes the numeral malformed. -/
def applyExp (n d : ℕ) : List Char → Option (ℕ × ℕ)
  | [] => some (n, d)
  | 'e' :: '+' :: ds => expVal n d false ds
  | 'e' :: '-' :: ds => expVal n d true ds
  | 'e' :: ds => expVal n d false ds
  | 'E' :: '+' :: ds => expVal n d false ds
  | 'E' :: '-' :: ds => expVal n d true ds
  | 'E' :: ds => expVal n d false ds
  | _ => none

/-- An unsigned decimal numeral: digits with an optional fractional
part (at least one digit overall) and an optional exponent suffix,
returned as an exact numerator/denominator pair. -/
def decNum (cs : List Char) : Option (ℕ × ℕ) :=
  let ip := cs.takeWhile (·.isDigit)
  let rest := cs.dropWhile (·.isDigit)
  match rest with
  | '.' :: rest2 =>
    let frac := rest2.takeWhile (·.isDigit)
    let rest3 := rest2.dropWhile (·.isDigit)
    if ip.isEmpty && frac.isEmpty then none
    else applyExp (digitsToNat ip * 10 ^ frac.length + digitsToNat frac)
      (10 ^ frac.length) rest3
  | _ =>
    if ip.isEmpty then none
    else applyExp (digitsToNat ip) 1 rest

/-- The double overflow bound: decimal numerals whose magnitude reaches
2^1024 coerce to a signed infinity.  (The exact IEEE-754 rounding
boundary sits just below 2^1024; the claims only exercise magnitudes
far from it.) -/
def jsOverflow : ℚ := ((2 ^ 1024 : ℕ) : ℚ)

/-- Clamp an exactly-parsed decimal value (sign and
numerator/denominator) to the double range. -/
def clampDouble (neg : Bool) (n d : ℕ) : JSNum :=
  let q : ℚ := mkRat (if neg then -(n : ℤ) else (n : ℤ)) d
  if jsOverflow ≤ q then .inf
  else if q ≤ -jsOverflow then .ninf
  else .num q

/-- The numeric body after the optional sign: the literal `Infinity`,
or a decimal numeral clamped to the double range; anything else is
NaN. -/
def signedNum (neg : Bool) (cs : List Char) : JSNum :=
  if cs = "Infinity".data then (if neg then .ninf else .inf)
  else
    match decNum cs with
    | some (n, d) => clampDouble neg n d
    | none => .nan

/-- Leading- and trailing-whitespace trim on characters (JavaScript
`String.prototype.trim`; the exotic Unicode space characters JavaScript
also trims never occur in the bodies the claims exercise). -/
def trimL (cs : List Char) : List Char :=
  ((cs.dropWhile Char.isWhitespace).reverse.dropWhile Char.isWhitespace).reverse

/-- Models JavaScript `Number(...)` on strings for decimal numerals:
surrounding whitespace is trimmed, the empty string is 0, an optionally
signed decimal numeral (with optional fraction and exponent) parses to
its value with overflow to a signed infinity, `Infinity` and
`-Infinity` parse to the infinities, and anything else (hex, words) is
NaN.  (Values are kept as exact rationals rather than rounded to the
nearest double; no claim distinguishes the two.) -/
def strToNumber (s : String) : JSNum :=
  match trimL s.data with
  | [] => .num 0
  | '-' :: rest => signedNum true rest
  | '+' :: rest => signedNum false rest
  | cs => signedNum false cs

/-- JavaScript `Number(v)`.  Array and object coercion goes through
string conversion in JavaScript; here only the empty array (which
coerces to 0) is modelled exactly and other arrays and objects are
NaN — a corner no claim exercises. -/
def jsNumber : JVal → JSNum
  | .null => .num 0
  | .undefined => .nan
  | .bool b => .num (if b then 1 else 0)
  | .num q => .num q
  | .str s => strToNumber s
  | .arr [] => .num 0
  | .arr (_ :: _) => .nan
  | .obj _ => .nan

/-- JavaScript `n > q` for a coerced number; NaN compares false,
`Infinity` is greater than every rational and `-Infinity` than none. -/
def jsGtQ (n : JSNum) (q : ℚ) : Bool :=
  match n with
  | .num a => decide (q < a)
  | .nan => false
  | .inf => true
  | .ninf => false

/-- JavaScript `Number.isFinite` on a coerced number. -/
def jsIsFinite : JSNum → Bool
  | .num _ => true
  | _ => false

/-- Split a character list at its first `>` into the part before and the
part after it. -/
def splitAtGt : List Char → Option (List Char × List Char)
  | [] => none
  | c :: t =>
    if c = '>' then some ([], t)
    else (splitAtGt t).map (fun p => (c :: p.1, p.2))

/-- Fuelled scan implementing `txt.replace(/<[^>]+>/g, "")`: every
segment from a `<` to the next `>` with at least one character in
between is removed.  The fuel only bounds recursion depth; each call
consumes at least one character, so fuel `cs.length` never runs out. -/
def stripTagsGo : Nat → List Char → List Char
  | _, [] => []
  | 0, cs => cs
  | fuel + 1, c :: rest =>
    if c = '<' then
      match splitAtGt rest with
      | some (b, a) =>
        if b.isEmpty then c :: stripTagsGo fuel rest else stripTagsGo fuel a
      | none => c :: stripTagsGo fuel rest
    else c :: stripTagsGo fuel rest

/-- `txt.replace(/<[^>]+>/g, "")` on a character list. -/
def stripTagsAux (cs : List Char) : List Char := stripTagsGo cs.length cs

/-- `s.replace(/^"+|"+$/g, "")` on characters: drop the leading and the
trailing run of double-quote characters. -/
def trimQuotesL (cs : List Char) : List Char :=
  ((cs.dropWhile (· == '"')).reverse.dropWhile (· == '"')).reverse

/-- JavaScript `s.split(sep)` for a one-character separator. -/
def charSplit (sep : Char) : List Char → List (List Char)
  | [] => [[]]
  | c :: rest =>
    let r := charSplit sep rest
    if c = sep then [] :: r else (c :: r.headD []) :: r.tail

/-- JavaScript `s.endsWith(pat)`. -/
def strEndsWith (s pat : String) : Bool := pat.data.isSuffixOf s.data

/-- Substring containment on characters. -/
def containsSub (pat : List Char) : List Char → Bool
  | [] => pat.isEmpty
  | c :: rest => pat.isPrefixOf (c :: rest) || containsSub pat rest

/-- JavaScript `s.includes(pat)`. -/
def strIncludes (s pat : String) : Bool := containsSub pat.data s.data

/-- The four result variables a successful branch of the loop assigns
(`locutor`, `programa`, `unicos`, `status`) just before `break`. -/
structure ShapeRes where
  locutor : JVal
  programa : JVal
  unicos : JSNum
  status : Status

/-- Shape A's stream selection:
`Array.isArray(j.streams) && j.streams.length ? j.streams[0] : j`. -/
def streamSel (j streams : JVal) : JVal :=
  match streams with
  | .arr xs => if xs.length != 0 then xs.headD .undefined else j
  | _ => j

/-- The listener count Shape A resolves:
`Number(stream.uniquelisteners ?? j.uniquelisteners ??
stream.currentlisteners ?? j.currentlisteners ?? 0)`. -/
def shapeACount (j stream : JVal) : JSNum :=
  jsNumber (nOr (jGetD stream "uniquelisteners")
    (nOr (jGetD j "uniquelisteners") (nOr (jGetD stream "currentlisteners")
      (nOr (jGetD j "currentlisteners") (.num 0)))))

/-- The condition of Shape A's status ternary, with JavaScript operator
precedence: `stream.streamstatus ?? j.streamstatus ?? (unicos ?? 0) > 0`
(the already-assigned `unicos` is never nullish, so `unicos ?? 0` is
`unicos`). -/
def shapeACond (j stream : JVal) : JVal :=
  nOr (jGetD stream "streamstatus")
    (nOr (jGetD j "streamstatus") (.bool (jsGtQ (shapeACount j stream) 0)))

/-- The four assignments of the `statistics?json=1` branch once `j` and
`stream` are known non-nullish (all remaining property reads are then
total).  The status line is
`Number(cond ? 1 : 0) === 1 ? "online" : "offline"`, which amounts to
the truthiness of the condition. -/
def shapeACore (j stream : JVal) : ShapeRes :=
  ⟨jsOr (jGetD stream "dj") (jsOr (jGetD j "dj") .null),
   jsOr (jGetD stream "songtitle")
     (jsOr (jGetD stream "servertitle") (jsOr (jGetD j "songtitle") .null)),
   shapeACount j stream,
   if truthy (shapeACond j stream) then .online else .offline⟩

/-- Parser of the `statistics?json=1` branch (Shape A).  The read
`j.streams` throws when `j` is nullish, and the read `stream.dj` throws
when the selected stream is nullish (both before any assignment);
afterwards every property read is total. -/
def shapeA (j : JVal) : Except JErr ShapeRes :=
  if isNullish j then .error (typeErrorOf j)
  else
    let stream := streamSel j (jGetD j "streams")
    if isNullish stream then .error (typeErrorOf stream)
    else .ok (shapeACore j stream)

/-- The effective explicit status flag of Shape A:
`stream.streamstatus ?? j.streamstatus` for a top-level object payload. -/
def effFlagA (fs : List (String × JVal)) : JVal :=
  nOr (jGetD (streamSel (JVal.obj fs) (jLookup fs "streams")) "streamstatus")
    (jLookup fs "streamstatus")

/-- The listener count Shape B resolves:
`Number(j.uniquelisteners ?? j.currentlisteners ?? 0)`. -/
def shapeBCount (j : JVal) : JSNum :=
  jsNumber (nOr (jGetD j "uniquelisteners") (nOr (jGetD j "currentlisteners") (.num 0)))

/-- The condition of Shape B's status ternary:
`j.streamstatus ?? (unicos ?? 0) > 0`. -/
def shapeBCond (j : JVal) : JVal :=
  nOr (jGetD j "streamstatus") (.bool (jsGtQ (shapeBCount j) 0))

/-- The four assignments of the `/stats` branch once `j` is known
non-nullish.  Note the announcer falls back to the song title:
`(j.dj || j.songtitle || null) ?? null`. -/
def shapeBCore (j : JVal) : ShapeRes :=
  ⟨jsOr (jGetD j "dj") (jsOr (jGetD j "songtitle") .null),
   jsOr (jGetD j "songtitle") (jsOr (jGetD j "servertitle") .null),
   shapeBCount j,
   if truthy (shapeBCond j) then .online else .offline⟩

/-- Parser of the `/stats` branch (Shape B).  The read `j.dj` throws
when `j` is nullish, before any assignment. -/
def shapeB (j : JVal) : Except JErr ShapeRes :=
  if isNullish j then .error (typeErrorOf j) else .ok (shapeBCore j)

/-- The comma-separated fields of a Shape C body after HTML stripping
and trimming: `txt.replace(/<[^>]+>/g, "").trim().split(",")`. -/
def partsOf (t : String) : List (List Char) :=
  charSplit ',' (trimL (stripTagsAux t.data))

/-- `parts.slice(6).join(",")` followed by the quote trim. -/
def titleOf (parts : List (List Char)) : String :=
  String.mk (trimQuotesL (List.intercalate [','] (parts.drop 6)))

/-- Parser of the `/7.html` branch (Shape C); `none` when fewer than 7
fields are present, in which case the loop assigns nothing. -/
def shapeC (t : String) : Option ShapeRes :=
  let parts := partsOf t
  if parts.length ≥ 7 then
    let current := strToNumber (String.mk (parts.headD []))
    let title := titleOf parts
    some ⟨.null, jsOr (.str title) .null,
      (if jsIsFinite current then current else .num 0),
      if jsGtQ current 0 then .online else .offline⟩
  else none

def isArrayB : JVal → Bool
  | .arr _ => true
  | _ => false

/-- Parser of the `status-json.xsl` branch (Shape D).  All accesses in
the source are guarded or optional-chained, so it is total. -/
def shapeD (j : JVal) : ShapeRes :=
  let src := jGetD (jGetD j "icestats") "source"
  let s := if truthy j && truthy (jGetD j "icestats") && isArrayB src then
      (match src with | .arr xs => xs.headD .undefined | _ => .undefined)
    else jsOr src (jGetD j "source")
  let listeners := jsNumber (nOr (jGetD s "listeners") (.num 0))
  ⟨.null, jsOr (jGetD s "title") (jsOr (jGetD s "server_name") .null),
    listeners, if jsGtQ listeners 0 then .online else .offline⟩

/-- `res.ok`: HTTP status in the 200–299 range. -/
def resOk (code : Nat) : Bool := 200 ≤ code && code ≤ 299

def BASE : String := "http://sonicpanel.oficialserver.com:8342"

/-- The five candidate endpoints in their fixed priority order. -/
def urls : List String :=
  [BASE ++ "/statistics?json=1",
   BASE ++ "/stats?sid=1&json=1",
   BASE ++ "/stats?json=1",
   BASE ++ "/7.html",
   BASE ++ "/status-json.xsl"]

/-- Outcome of one upstream request: either the fetch itself threw
(timeout, connection error), or a response arrived carrying an HTTP
status code together with the result of reading its body as JSON
(`res.json()`, which throws on malformed bodies) and as text
(`res.text()`).  Each branch consumes only the view it needs. -/
inductive Resp where
  | fail (e : JErr)
  | resp (code : Nat) (json : Except JErr JVal) (text : String)

/-- One iteration of the candidate loop body up to its `break`:
`.error e` is a thrown error (caught by the loop, recorded in
`lastError`, continue); `.ok none` is falling through with no
assignment (Shape C with fewer than 7 fields, or a URL matching no
branch); `.ok (some r)` is a branch assigning the four result
variables and breaking. -/
def attempt (u : String) (r : Resp) : Except JErr (Option ShapeRes) :=
  match r with
  | .fail e => .error e
  | .resp code js txt =>
    if !resOk code then .error ⟨"Error", "HTTP " ++ toString code⟩
    else if strEndsWith u "statistics?json=1" then
      match js with
      | .error e => .error e
      | .ok j => (shapeA j).map some
    else if strIncludes u "/stats" then
      match js with
      | .error e => .error e
      | .ok j => (shapeB j).map some
    else if strEndsWith u "/7.html" then
      -- A Shape C miss falls through to the final URL test in the
      -- source, which cannot also match a URL ending in "/7.html".
      .ok (shapeC txt)
    else if strEndsWith u "status-json.xsl" then
      match js with
      | .error e => .error e
      | .ok j => .ok (some (shapeD j))
    else .ok none

/-- The loop's mutable state: the four result variables plus the last
recorded per-endpoint error. -/
structure St where
  locutor : JVal
  programa : JVal
  unicos : Option JSNum
  status : Status
  lastError : Option JErr

def St.init : St := ⟨.null, .null, none, .offline, none⟩

/-- Assignment of the four result variables by a breaking branch. -/
def applyRes (st : St) (r : ShapeRes) : St :=
  { st with locutor := r.locutor, programa := r.programa,
            unicos := some r.unicos, status := r.status }

/-- One loop iteration: the resulting state and whether it `break`s. -/
def step (u : String) (r : Resp) (st : St) : St × Bool :=
  match attempt u r with
  | .error e => ({ st with lastError := some e }, false)
  | .ok none => (st, false)
  | .ok (some res) => (applyRes st res, true)

/-- Whether an endpoint's outcome makes the loop `break` there (this
does not depend on the loop state). -/
def breaks (u : String) (r : Resp) : Bool :=
  match attempt u r with
  | .ok (some _) => true
  | _ => false

/-- The candidate loop over the remaining endpoints. -/
def resolveFrom : List (String × Resp) → St → St
  | [], st => st
  | ur :: rest, st =>
    match step ur.1 ur.2 st with
    | (st', true) => st'
    | (st', false) => resolveFrom rest st'

/-- The `data` object of a success envelope. -/
structure RData where
  locutor : JVal
  programa : JVal
  unicos : JSNum
  status : Status

/-- The JSON body returned to the caller. -/
inductive Envelope where
  | success (timestamp : String) (data : RData)
  | failure (error : String)

/-- HTTP status code and body of the route's response. -/
structure HttpResp where
  code : Nat
  body : Envelope

/-- `String(lastError)` as interpolated into the exhaustion message. -/
def jsStringOfErr : Option JErr → String
  | none => "null"
  | some e => e.name ++ ": " ++ e.message

/-- The `data` object built on success: placeholders for falsy
announcer/program, `Number(unicos ?? 0)` for the count. -/
def renderData (st : St) : RData :=
  ⟨jsOr st.locutor (.str "—"), jsOr st.programa (.str "—"),
   st.unicos.getD (.num 0), st.status⟩

def exhaustionMsg (st : St) : String :=
  "Nenhum endpoint do Shoutcast respondeu. Último erro: " ++ jsStringOfErr st.lastError

/-- Whether the post-loop exhaustion test
`unicos === null && programa === null && locutor === null` fires. -/
def exhausted (st : St) : Bool :=
  match st.unicos, st.programa, st.locutor with
  | none, .null, .null => true
  | _, _, _ => false

/-- The GET handler, with the wall clock reading and the upstream
behaviour of the five candidate endpoints as parameters. -/
def GETmodel (now : String) (resps : List Resp) : HttpResp :=
  let stf := resolveFrom (urls.zip resps) St.init
  if exhausted stf then ⟨500, .failure (exhaustionMsg stf)⟩
  else ⟨200, .success now (renderData stf)⟩

/-- The error a single endpoint attempt records in `lastError`, if any. -/
def recordsErr (u : String) (r : Resp) : Option JErr :=
  match attempt u r with
  | .error e => some e
  | .ok _ => none

/-- Left-biased choice on recorded errors. -/
def orE (a b : Option JErr) : Option JErr :=
  match a with
  | some e => some e
  | none => b

/-- The last error recorded while stepping through a list of endpoint
outcomes (later endpoints take precedence). -/
def lastRecorded : List (String × Resp) → Option JErr
  | [] => none
  | p :: rest => orE (lastRecorded rest) (recordsErr p.1 p.2)

/-- A success envelope with its timestamp blanked, for comparing two
responses up to the clock reading. -/
def stripTs : Envelope → Envelope
  | .success _ d => .success "" d
  | e => e

theorem orE_assoc (a b c : Option JErr) : orE (orE a b) c = orE a (orE b c) := by
  cases a <;> cases b <;> rfl

theorem orE_none (a : Option JErr) : orE a none = a := by
  cases a <;> rfl

/-- Whether an iteration breaks does not depend on the loop state. -/
theorem step_snd (u : String) (r : Resp) (st : St) : (step u r st).2 = breaks u r := by
  unfold step breaks
  rcases attempt u r with e | r'
  · rfl
  · rcases r' with _ | res <;> rfl

/-- A non-breaking iteration changes at most `lastError`, and exactly to
the error it records. -/
theorem step_nobreak (u : String) (r : Resp) (st : St) (h : breaks u r = false) :
    (step u r st).1 = { st with lastError := orE (recordsErr u r) st.lastError } := by
  unfold step
  unfold breaks at h
  unfold recordsErr orE
  rcases ha : attempt u r with e | r'
  · rfl
  · rcases r' with _ | res
    · rfl
    · rw [ha] at h; simp at h

/-- A breaking iteration overwrites the four result fields with the
parsed result and leaves `lastError` alone. -/
theorem step_break (u : String) (r : Resp) (st : St) (res : ShapeRes)
    (h : attempt u r = .ok (some res)) :
    step u r st = (applyRes st res, true) := by
  unfold step
  rw [h]

/-- Unfolding of one loop iteration. -/
theorem resolveFrom_cons (ur : String × Resp) (rest : List (String × Resp)) (st : St) :
    resolveFrom (ur :: rest) st =
      if breaks ur.1 ur.2 then (step ur.1 ur.2 st).1
      else resolveFrom rest (step ur.1 ur.2 st).1 := by
  have hsnd := step_snd ur.1 ur.2 st
  conv_lhs => unfold resolveFrom
  rcases hs : step ur.1 ur.2 st with ⟨st', brk⟩
  rw [hs] at hsnd
  rw [← hsnd]
  cases brk <;> simp

/-- When no endpoint in the list breaks, the loop only accumulates the
last recorded error. -/
theorem resolveFrom_nobreak (eps : List (String × Resp)) (st : St)
    (h : ∀ p ∈ eps, breaks p.1 p.2 = false) :
    resolveFrom eps st = { st with lastError := orE (lastRecorded eps) st.lastError } := by
  induction eps generalizing st with
  | nil => simp [resolveFrom, lastRecorded, orE]
  | cons p rest ih =>
    have hp : breaks p.1 p.2 = false := h p (List.mem_cons_self p rest)
    have hr : ∀ q ∈ rest, breaks q.1 q.2 = false := fun q hq => h q (List.mem_cons_of_mem p hq)
    rw [resolveFrom_cons, hp]
    simp only [Bool.false_eq_true, if_false]
    rw [step_nobreak p.1 p.2 st hp, ih _ hr]
    simp [lastRecorded, orE_assoc]

/-- Once an endpoint breaks, everything after it is irrelevant. -/
theorem resolveFrom_stops (pre : List (String × Resp)) (ur : String × Resp)
    (rest rest' : List (String × Resp)) (st : St)
    (hpre : ∀ p ∈ pre, breaks p.1 p.2 = false)
    (hbrk : breaks ur.1 ur.2 = true) :
    resolveFrom (pre ++ ur :: rest) st = resolveFrom (pre ++ ur :: rest') st := by
  induction pre generalizing st with
  | nil =>
    simp only [List.nil_append]
    rw [resolveFrom_cons, resolveFrom_cons, hbrk]
    simp
  | cons p rest₀ ih =>
    have hp : breaks p.1 p.2 = false := hpre p (List.mem_cons_self p rest₀)
    have hr : ∀ q ∈ rest₀, breaks q.1 q.2 = false := fun q hq => hpre q (List.mem_cons_of_mem p hq)
    simp only [List.cons_append]
    rw [resolveFrom_cons, resolveFrom_cons, hp]
    simp only [Bool.false_eq_true, if_false]
    exact ih _ hr

theorem nOr_nonnull (a b : JVal) (h : isNullish a = false) : nOr a b = a := by
  unfold nOr; rw [h]; rfl

theorem nOr_nullish (a b : JVal) (h : isNullish a = true) : nOr a b = b := by
  unfold nOr; rw [h]; rfl

/-- A nullish chain ending in a default can be truncated after the part
already known to be non-nullish. -/
theorem nOr_flatten (a b c : JVal) (h : isNullish (nOr a b) = false) :
    nOr a (nOr b c) = nOr a b := by
  cases ha : isNullish a
  · rw [nOr_nonnull a _ ha, nOr_nonnull a _ ha]
  · have h2 : isNullish b = false := by rwa [nOr_nullish a b ha] at h
    rw [nOr_nullish a _ ha, nOr_nullish a _ ha, nOr_nonnull b _ h2]

/-- Both branches of a nullish chain that evaluates to nullish are
themselves nullish. -/
theorem nOr_nullish_parts (a b : JVal) (h : isNullish (nOr a b) = true) :
    isNullish a = true ∧ isNullish b = true := by
  cases ha : isNullish a
  · rw [nOr_nonnull a b ha] at h
    rw [ha] at h
    simp at h
  · rw [nOr_nullish a b ha] at h
    exact ⟨rfl, h⟩

/-- The status ternary resolves to online exactly on a true condition. -/
theorem status_ite_online_iff (b : Bool) :
    ((if b then Status.online else Status.offline) = .online) ↔ b = true := by
  cases b <;> simp

theorem shapeB_obj (fs : List (String × JVal)) :
    shapeB (JVal.obj fs) = .ok (shapeBCore (JVal.obj fs)) := rfl

theorem shapeA_obj (fs : List (String × JVal))
    (h : isNullish (streamSel (JVal.obj fs) (jLookup fs "streams")) = false) :
    shapeA (JVal.obj fs) =
      .ok (shapeACore (JVal.obj fs) (streamSel (JVal.obj fs) (jLookup fs "streams"))) := by
  simp only [shapeA, show isNullish (JVal.obj fs) = false from rfl,
    show jGetD (JVal.obj fs) "streams" = jLookup fs "streams" from rfl, h]
  simp

/-- A successful Shape A parse forces a non-nullish first stream and
pins down the result. -/
theorem shapeA_ok_inv (fs : List (String × JVal)) (r : ShapeRes)
    (h : shapeA (JVal.obj fs) = .ok r) :
    isNullish (streamSel (JVal.obj fs) (jLookup fs "streams")) = false ∧
    r = shapeACore (JVal.obj fs) (streamSel (JVal.obj fs) (jLookup fs "streams")) := by
  cases hn : isNullish (streamSel (JVal.obj fs) (jLookup fs "streams"))
  · rw [shapeA_obj fs hn] at h
    exact ⟨rfl, (Except.ok.inj h).symm⟩
  · simp only [shapeA, show isNullish (JVal.obj fs) = false from rfl,
      show jGetD (JVal.obj fs) "streams" = jLookup fs "streams" from rfl, hn] at h
    simp at h

theorem attempt_fail (u : String) (e : JErr) : attempt u (.fail e) = .error e := rfl

/-- How the loop body dispatches endpoint 1 (`statistics?json=1`). -/
theorem attempt_url0 (code : Nat) (js : Except JErr JVal) (t : String) :
    attempt (BASE ++ "/statistics?json=1") (Resp.resp code js t)
      = if !resOk code then .error ⟨"Error", "HTTP " ++ toString code⟩
        else match js with
          | .error e => .error e
          | .ok j => (shapeA j).map some := rfl

/-- How the loop body dispatches endpoint 2 (`stats?sid=1&json=1`). -/
theorem attempt_url1 (code : Nat) (js : Except JErr JVal) (t : String) :
    attempt (BASE ++ "/stats?sid=1&json=1") (Resp.resp code js t)
      = if !resOk code then .error ⟨"Error", "HTTP " ++ toString code⟩
        else match js with
          | .error e => .error e
          | .ok j => (shapeB j).map some := rfl

/-- How the loop body dispatches endpoint 3 (`stats?json=1`). -/
theorem attempt_url2 (code : Nat) (js : Except JErr JVal) (t : String) :
    attempt (BASE ++ "/stats?json=1") (Resp.resp code js t)
      = if !resOk code then .error ⟨"Error", "HTTP " ++ toString code⟩
        else match js with
          | .error e => .error e
          | .ok j => (shapeB j).map some := rfl

/-- How the loop body dispatches endpoint 4 (`7.html`). -/
theorem attempt_url3 (code : Nat) (js : Except JErr JVal) (t : String) :
    attempt (BASE ++ "/7.html") (Resp.resp code js t)
      = if !resOk code then .error ⟨"Error", "HTTP " ++ toString code⟩
        else .ok (shapeC t) := rfl

/-- How the loop body dispatches endpoint 5 (`status-json.xsl`). -/
theorem attempt_url4 (code : Nat) (js : Except JErr JVal) (t : String) :
    attempt (BASE ++ "/status-json.xsl") (Resp.resp code js t)
      = if !resOk code then .error ⟨"Error", "HTTP " ++ toString code⟩
        else match js with
          | .error e => .error e
          | .ok j => .ok (some (shapeD j)) := rfl

/-- **C1** (counterexample): a Shape B payload with the explicit numeric
stream-status flag 2 resolves to online, not offline as the claim
demands for every flag value other than 1.  The status expression
`Number(j.streamstatus ?? (unicos ?? 0) > 0 ? 1 : 0) === 1` tests the
truthiness of the flag, not its equality to 1. -/
theorem c1_flag2_online :
    (shapeB (JVal.obj [("streamstatus", JVal.num 2)])).map ShapeRes.status = .ok .online
    ∧ Status.online ≠ Status.offline :=
  ⟨rfl, fun h => Status.noConfusion h⟩

/-- **C1** (amended): for Shape A and Shape B parsing, when an explicit
stream-status flag is present (stream-level or top-level for Shape A,
top-level for Shape B), the resolved status is online iff that flag is
truthy (a nonzero number, a non-empty string, `true`, or any object);
so flag 1 gives online and flag 0 gives offline, but flag 2 or a
non-empty string also give online. -/
theorem c1_flag_truthiness :
    (∀ fs r, shapeB (JVal.obj fs) = .ok r →
       isNullish (jLookup fs "streamstatus") = false →
       (r.status = .online ↔ truthy (jLookup fs "streamstatus") = true))
  ∧ (∀ fs r, shapeA (JVal.obj fs) = .ok r →
       isNullish (effFlagA fs) = false →
       (r.status = .online ↔ truthy (effFlagA fs) = true)) := by
  constructor
  · intro fs r hok hflag
    rw [shapeB_obj] at hok
    rw [← Except.ok.inj hok]
    show (if truthy (shapeBCond (JVal.obj fs)) then Status.online else Status.offline)
        = .online ↔ _
    rw [status_ite_online_iff]
    unfold shapeBCond
    rw [show jGetD (JVal.obj fs) "streamstatus" = jLookup fs "streamstatus" from rfl]
    rw [nOr_nonnull _ _ hflag]
  · intro fs r hok hflag
    obtain ⟨hs, hr⟩ := shapeA_ok_inv fs r hok
    rw [hr]
    show (if truthy (shapeACond (JVal.obj fs)
            (streamSel (JVal.obj fs) (jLookup fs "streams")))
          then Status.online else Status.offline) = .online ↔ _
    rw [status_ite_online_iff]
    unfold shapeACond
    unfold effFlagA at hflag ⊢
    rw [show jGetD (JVal.obj fs) "streamstatus" = jLookup fs "streamstatus" from rfl]
    rw [nOr_flatten _ _ _ hflag]

/-- **C1** witness: the amended theorem applied to concrete payloads,
flag 1 for Shape B (truthy, online) and flag 0 for Shape A (falsy,
offline). -/
theorem c1_flag_truthiness_witness :
    ((shapeBCore (JVal.obj [("streamstatus", JVal.num 1)])).status = .online ↔
       truthy (JVal.num 1) = true)
  ∧ ((shapeACore (JVal.obj [("streamstatus", JVal.num 0)])
        (streamSel (JVal.obj [("streamstatus", JVal.num 0)])
          (jLookup [("streamstatus", JVal.num 0)] "streams"))).status = .online ↔
       truthy (JVal.num 0) = true) :=
  ⟨c1_flag_truthiness.1 [("streamstatus", JVal.num 1)] _ rfl rfl,
   c1_flag_truthiness.2 [("streamstatus", JVal.num 0)] _ rfl rfl⟩

/-- **C4** (counterexample): the Shape C body
`"Infinity,0,0,0,0,0,X"` parses field 0 to Infinity, which fails the
`Number.isFinite` filter, so the stored listener count is 0 — yet the
status test `current > 0` sees Infinity and reports online.  The
resolution thus carries listener count 0 with status online, refuting
"online iff n > 0" (no flag is present in this shape). -/
theorem c4_infinite_count_online :
    shapeC "Infinity,0,0,0,0,0,X"
      = some ⟨JVal.null, JVal.str "X", JSNum.num 0, Status.online⟩
    ∧ jsGtQ (JSNum.num 0) 0 = false :=
  ⟨rfl, rfl⟩

/-- **C4** (amended): with no explicit stream-status flag present, the
resolved status is online iff the resolved listener count is greater
than 0 — for Shapes A, B and D always, and for Shape C whenever field 0
does not parse to positive Infinity (a NaN or −Infinity count is stored
as 0 and reported offline, preserving the equivalence); a +Infinity
field 0 instead stores count 0 while reporting online. -/
theorem c4_online_iff_positive :
    (∀ fs r, shapeA (JVal.obj fs) = .ok r → isNullish (effFlagA fs) = true →
       (r.status = .online ↔ jsGtQ r.unicos 0 = true))
  ∧ (∀ fs r, shapeB (JVal.obj fs) = .ok r → isNullish (jLookup fs "streamstatus") = true →
       (r.status = .online ↔ jsGtQ r.unicos 0 = true))
  ∧ (∀ t r, shapeC t = some r →
       strToNumber (String.mk ((partsOf t).headD [])) ≠ JSNum.inf →
       (r.status = .online ↔ jsGtQ r.unicos 0 = true))
  ∧ (∀ j, ((shapeD j).status = .online ↔ jsGtQ (shapeD j).unicos 0 = true)) := by
  refine ⟨?_, ?_, ?_, ?_⟩
  · intro fs r hok hflag
    obtain ⟨hs, hr⟩ := shapeA_ok_inv fs r hok
    rw [hr]
    show (if truthy (shapeACond (JVal.obj fs)
            (streamSel (JVal.obj fs) (jLookup fs "streams")))
          then Status.online else Status.offline) = .online ↔ _
    rw [status_ite_online_iff]
    unfold effFlagA at hflag
    obtain ⟨h1, h2⟩ := nOr_nullish_parts _ _ hflag
    unfold shapeACond
    rw [show jGetD (JVal.obj fs) "streamstatus" = jLookup fs "streamstatus" from rfl]
    rw [nOr_nullish _ _ h1, nOr_nullish _ _ h2]
    rfl
  · intro fs r hok hflag
    rw [shapeB_obj] at hok
    rw [← Except.ok.inj hok]
    show (if truthy (shapeBCond (JVal.obj fs)) then Status.online else Status.offline)
        = .online ↔ _
    rw [status_ite_online_iff]
    unfold shapeBCond
    rw [show jGetD (JVal.obj fs) "streamstatus" = jLookup fs "streamstatus" from rfl]
    rw [nOr_nullish _ _ hflag]
    rfl
  · intro t r hok hinf
    simp only [shapeC] at hok
    split at hok
    · rw [← Option.some.inj hok]
      rcases hc : strToNumber (String.mk ((partsOf t).headD [])) with q | _ | _ | _
      · simp [hc, status_ite_online_iff, jsGtQ, jsIsFinite]
      · simp [hc, status_ite_online_iff, jsGtQ, jsIsFinite]
      · exact absurd hc hinf
      · simp [hc, status_ite_online_iff, jsGtQ, jsIsFinite]
    · cases hok
  · intro j
    show (if jsGtQ _ 0 then Status.online else Status.offline) = .online ↔ _
    rw [status_ite_online_iff]
    exact Iff.rfl

/-- **C4** witness: the four amended conjuncts applied to concrete
inputs — Shape A with 3 unique listeners (online), Shape B with 0
current listeners (offline), the Shape C sample body with its finite
field 0 discharged, and a Shape D payload of 5 listeners. -/
theorem c4_online_iff_positive_witness :
    ((shapeACore (JVal.obj [("uniquelisteners", JVal.num 3)])
        (streamSel (JVal.obj [("uniquelisteners", JVal.num 3)])
          (jLookup [("uniquelisteners", JVal.num 3)] "streams"))).status = .online ↔
       jsGtQ (shapeACore (JVal.obj [("uniquelisteners", JVal.num 3)])
        (streamSel (JVal.obj [("uniquelisteners", JVal.num 3)])
          (jLookup [("uniquelisteners", JVal.num 3)] "streams"))).unicos 0 = true)
  ∧ ((shapeBCore (JVal.obj [("currentlisteners", JVal.num 0)])).status = .online ↔
       jsGtQ (shapeBCore (JVal.obj [("currentlisteners", JVal.num 0)])).unicos 0 = true)
  ∧ ((Status.offline : Status) = .online ↔ jsGtQ (JSNum.num 0) 0 = true)
  ∧ ((shapeD (JVal.obj [("icestats", JVal.obj [("source",
        JVal.obj [("listeners", JVal.num 5)])])])).status = .online ↔
       jsGtQ (shapeD (JVal.obj [("icestats", JVal.obj [("source",
        JVal.obj [("listeners", JVal.num 5)])])])).unicos 0 = true) :=
  ⟨c4_online_iff_positive.1 [("uniquelisteners", JVal.num 3)] _ rfl rfl,
   c4_online_iff_positive.2.1 [("currentlisteners", JVal.num 0)] _ rfl rfl,
   c4_online_iff_positive.2.2.1 "0,10,100,0,128,0,S"
     ⟨JVal.null, JVal.str "S", JSNum.num 0, Status.offline⟩ rfl (by decide),
   c4_online_iff_positive.2.2.2 _⟩

/-- **C5** (counterexample): a Shape B payload with no `dj` field but a
non-empty `songtitle` resolves the announcer to the song title, not to
`null` as the claim demands: the source computes
`locutor = (j.dj || j.songtitle || null) ?? null`, which falls back to
the song title. -/
theorem c5_songtitle_leaks_into_announcer :
    (shapeB (JVal.obj [("songtitle", JVal.str "My Song")])).map ShapeRes.locutor
      = .ok (JVal.str "My Song")
    ∧ JVal.str "My Song" ≠ JVal.null :=
  ⟨rfl, fun h => JVal.noConfusion h⟩

/-- **C5** (amended): for Shape B the announcer is
`j.dj || j.songtitle || null`: the `dj` field when truthy, else the
`songtitle` field when truthy, and `null` (rendered as the placeholder)
only when both are falsy — regardless of the other fields such as
`servertitle`. -/
theorem c5_announcer_fallback (fs : List (String × JVal)) :
    shapeB (JVal.obj fs)
      = .ok (shapeBCore (JVal.obj fs))
    ∧ (shapeBCore (JVal.obj fs)).locutor
      = jsOr (jLookup fs "dj") (jsOr (jLookup fs "songtitle") .null)
    ∧ (truthy (jLookup fs "dj") = false → truthy (jLookup fs "songtitle") = false →
        (shapeBCore (JVal.obj fs)).locutor = .null) := by
  refine ⟨shapeB_obj fs, rfl, ?_⟩
  intro hdj hst
  show jsOr (jGetD (JVal.obj fs) "dj") (jsOr (jGetD (JVal.obj fs) "songtitle") .null) = .null
  rw [show jGetD (JVal.obj fs) "dj" = jLookup fs "dj" from rfl,
      show jGetD (JVal.obj fs) "songtitle" = jLookup fs "songtitle" from rfl]
  unfold jsOr
  rw [hdj, hst]
  simp

/-- **C5** witness: the amended theorem applied to a payload carrying
only a server title; with `dj` and `songtitle` both absent the
announcer is `null`. -/
theorem c5_announcer_fallback_witness :
    (shapeBCore (JVal.obj [("servertitle", JVal.str "S")])).locutor = JVal.null :=
  (c5_announcer_fallback [("servertitle", JVal.str "S")]).2.2 rfl rfl

/-- **C2**: the resolver walks the five fixed candidates in order; a
breaking endpoint makes everything after it irrelevant (never
contacted); an endpoint that breaks always stores a listener count (a
non-null field), while a non-breaking one (transport failure or
unusable parse) leaves announcer, program and listener count untouched
and lets the iteration continue. -/
theorem c2_first_success_wins :
    urls.length = 5
  ∧ (∀ pre ur rest rest' st, (∀ p ∈ pre, breaks p.1 p.2 = false) →
      breaks ur.1 ur.2 = true →
      resolveFrom (pre ++ ur :: rest) st = resolveFrom (pre ++ ur :: rest') st)
  ∧ (∀ u r st, breaks u r = true → (step u r st).1.unicos ≠ none)
  ∧ (∀ u r, breaks u r = false →
      (step u r St.init).1.locutor = JVal.null ∧
      (step u r St.init).1.programa = JVal.null ∧
      (step u r St.init).1.unicos = none)
  ∧ (∀ u e rest st, resolveFrom ((u, Resp.fail e) :: rest) st
      = resolveFrom rest { st with lastError := some e }) := by
  refine ⟨rfl, ?_, ?_, ?_, ?_⟩
  · intro pre ur rest rest' st hpre hbrk
    exact resolveFrom_stops pre ur rest rest' st hpre hbrk
  · intro u r st h
    unfold breaks at h
    rcases ha : attempt u r with e | o
    · rw [ha] at h; simp at h
    · rcases o with _ | res
      · rw [ha] at h; simp at h
      · rw [step_break u r st res ha]
        simp [applyRes]
  · intro u r h
    rw [step_nobreak u r St.init h]
    exact ⟨rfl, rfl, rfl⟩
  · intro u e rest st
    rfl

/-- **C2** witness: with endpoint 1 failing and endpoint 2 usable, the
resolution result does not depend on what comes after endpoint 2; and a
non-breaking Shape C short body leaves all three target fields null. -/
theorem c2_first_success_wins_witness :
    resolveFrom [(BASE ++ "/statistics?json=1", Resp.fail ⟨"E", "x"⟩),
                 (BASE ++ "/stats?sid=1&json=1", Resp.resp 200 (.ok (JVal.obj [])) ""),
                 (BASE ++ "/stats?json=1", Resp.fail ⟨"E", "y"⟩)] St.init
      = resolveFrom [(BASE ++ "/statistics?json=1", Resp.fail ⟨"E", "x"⟩),
                     (BASE ++ "/stats?sid=1&json=1", Resp.resp 200 (.ok (JVal.obj [])) "")] St.init
  ∧ ((step (BASE ++ "/7.html") (Resp.resp 200 (.error ⟨"S", "x"⟩) "1,2,3") St.init).1.locutor = JVal.null ∧
     (step (BASE ++ "/7.html") (Resp.resp 200 (.error ⟨"S", "x"⟩) "1,2,3") St.init).1.programa = JVal.null ∧
     (step (BASE ++ "/7.html") (Resp.resp 200 (.error ⟨"S", "x"⟩) "1,2,3") St.init).1.unicos = none) :=
  ⟨c2_first_success_wins.2.1
      [(BASE ++ "/statistics?json=1", Resp.fail ⟨"E", "x"⟩)]
      (BASE ++ "/stats?sid=1&json=1", Resp.resp 200 (.ok (JVal.obj [])) "")
      [(BASE ++ "/stats?json=1", Resp.fail ⟨"E", "y"⟩)] [] St.init
      (by intro p hp; rw [List.mem_singleton] at hp; subst hp; rfl) rfl,
   c2_first_success_wins.2.2.2.1 (BASE ++ "/7.html")
      (Resp.resp 200 (.error ⟨"S", "x"⟩) "1,2,3") rfl⟩

/-- **C3**: when every candidate fails to break (transport failures or
unusable parses across all five), the route returns the failure
envelope `{ success: false, error: ... }` with HTTP status 500, whose
message embeds the string form of the last recorded per-endpoint
failure; no success envelope is produced. -/
theorem c3_exhaustion_error (now : String) (resps : List Resp)
    (_h5 : resps.length = 5)
    (hall : ∀ p ∈ urls.zip resps, breaks p.1 p.2 = false) :
    GETmodel now resps =
      ⟨500, .failure ("Nenhum endpoint do Shoutcast respondeu. Último erro: "
        ++ jsStringOfErr (lastRecorded (urls.zip resps)))⟩ := by
  simp only [GETmodel]
  rw [resolveFrom_nobreak _ _ hall]
  simp [St.init, exhausted, exhaustionMsg, orE_none]

/-- **C3** witness: all five endpoints refusing the connection yields
the 500 failure envelope embedding the last error's string form. -/
theorem c3_exhaustion_error_witness :
    GETmodel "T" [Resp.fail ⟨"TypeError", "fetch failed 1"⟩,
      Resp.fail ⟨"TypeError", "fetch failed 2"⟩, Resp.fail ⟨"TypeError", "fetch failed 3"⟩,
      Resp.fail ⟨"TypeError", "fetch failed 4"⟩, Resp.fail ⟨"TypeError", "fetch failed 5"⟩]
      = ⟨500, .failure ("Nenhum endpoint do Shoutcast respondeu. Último erro: "
          ++ jsStringOfErr (lastRecorded (urls.zip [Resp.fail ⟨"TypeError", "fetch failed 1"⟩,
            Resp.fail ⟨"TypeError", "fetch failed 2"⟩, Resp.fail ⟨"TypeError", "fetch failed 3"⟩,
            Resp.fail ⟨"TypeError", "fetch failed 4"⟩, Resp.fail ⟨"TypeError", "fetch failed 5"⟩])))⟩ :=
  c3_exhaustion_error "T" _ rfl (by decide)

/-- **C6** (counterexample): a Shape A payload reporting −5 unique
listeners produces a success envelope whose `unicos` is −5 — a negative
value — because the output boundary computes `Number(unicos ?? 0)` with
no clamping or flooring. -/
theorem c6_negative_count_returned :
    GETmodel "T" [Resp.resp 200 (.ok (JVal.obj [("uniquelisteners", JVal.num (-5))])) "",
      Resp.fail ⟨"E", "x"⟩, Resp.fail ⟨"E", "x"⟩, Resp.fail ⟨"E", "x"⟩, Resp.fail ⟨"E", "x"⟩]
      = ⟨200, .success "T" ⟨JVal.str "—", JVal.str "—", JSNum.num (-5), Status.offline⟩⟩
    ∧ (-5 : ℚ) < 0 :=
  ⟨rfl, by norm_num⟩

/-- **C6** (amended): in every success envelope `unicos` is the
resolved listener count passed through verbatim (`Number(unicos ?? 0)`,
defaulting to 0 when nothing was resolved): it is a non-negative
integer whenever the upstream count field is one, but negative,
fractional or NaN resolved counts are forwarded unchanged rather than
coerced to a non-negative integer. -/
theorem c6_count_passthrough (now : String) (resps : List Resp) (ts : String) (d : RData)
    (h : GETmodel now resps = ⟨200, Envelope.success ts d⟩) :
    d.unicos = ((resolveFrom (urls.zip resps) St.init).unicos).getD (JSNum.num 0)
  ∧ (∀ fs q, jLookup fs "uniquelisteners" = JVal.num q →
      (shapeB (JVal.obj fs)).map ShapeRes.unicos = .ok (JSNum.num q)) := by
  constructor
  · simp only [GETmodel] at h
    split at h
    · simp at h
    · simp only [HttpResp.mk.injEq, Envelope.success.injEq] at h
      rw [← h.2.2]
      rfl
  · intro fs q hq
    rw [shapeB_obj]
    show Except.ok (shapeBCount (JVal.obj fs)) = _
    unfold shapeBCount
    rw [show jGetD (JVal.obj fs) "uniquelisteners" = jLookup fs "uniquelisteners" from rfl, hq]
    rw [nOr_nonnull (JVal.num q) _ rfl]
    rfl

/-- **C6** witness: the amended theorem applied to the −5-listener
payload: the envelope's `unicos` is exactly the resolved count. -/
theorem c6_count_passthrough_witness :
    (⟨JVal.str "—", JVal.str "—", JSNum.num (-5), Status.offline⟩ : RData).unicos
      = ((resolveFrom (urls.zip [Resp.resp 200
            (.ok (JVal.obj [("uniquelisteners", JVal.num (-5))])) "",
          Resp.fail ⟨"E", "x"⟩, Resp.fail ⟨"E", "x"⟩, Resp.fail ⟨"E", "x"⟩,
          Resp.fail ⟨"E", "x"⟩]) St.init).unicos).getD (JSNum.num 0) :=
  (c6_count_passthrough "T"
    [Resp.resp 200 (.ok (JVal.obj [("uniquelisteners", JVal.num (-5))])) "",
     Resp.fail ⟨"E", "x"⟩, Resp.fail ⟨"E", "x"⟩, Resp.fail ⟨"E", "x"⟩, Resp.fail ⟨"E", "x"⟩]
    "T" ⟨JVal.str "—", JVal.str "—", JSNum.num (-5), Status.offline⟩ rfl).1

/-- **C7**: the Shape C body `"2,10,100,0,128,0,Song - Artist"` (served
by the fourth endpoint after the first three fail) resolves to program
"Song - Artist", listener count 2, status online, and the announcer
placeholder "—"; and in general a parsed Shape C body has at least 7
comma-separated fields, its program title is the fields from index 6
onward rejoined with commas with surrounding quotes trimmed (made null
when empty), and its listener count is the numeric value of field 0. -/
theorem c7_shapeC_sample :
    GETmodel "2024-01-01T00:00:00.000Z"
      [Resp.fail ⟨"TypeError", "fetch failed"⟩, Resp.fail ⟨"TypeError", "fetch failed"⟩,
       Resp.fail ⟨"TypeError", "fetch failed"⟩,
       Resp.resp 200 (.error ⟨"SyntaxError", "Unexpected token"⟩) "2,10,100,0,128,0,Song - Artist",
       Resp.fail ⟨"TypeError", "fetch failed"⟩]
      = ⟨200, .success "2024-01-01T00:00:00.000Z"
          ⟨JVal.str "—", JVal.str "Song - Artist", JSNum.num 2, Status.online⟩⟩
  ∧ (∀ t r, shapeC t = some r →
      (partsOf t).length ≥ 7
      ∧ r.programa = jsOr (JVal.str (titleOf (partsOf t))) JVal.null
      ∧ (∀ q, strToNumber (String.mk ((partsOf t).headD [])) = .num q → r.unicos = .num q)) := by
  constructor
  · rfl
  · intro t r h
    simp only [shapeC] at h
    split at h
    · refine ⟨by assumption, ?_, ?_⟩
      · rw [← Option.some.inj h]
      · intro q hq
        rw [← Option.some.inj h]
        rw [hq]
        simp [jsIsFinite]
    · cases h

/-- **C7** witness: the general Shape C clause applied to the sample
body, with the numeric first field discharged at 2. -/
theorem c7_shapeC_sample_witness :
    (partsOf "2,10,100,0,128,0,Song - Artist").length ≥ 7
    ∧ (⟨JVal.null, JVal.str "Song - Artist", JSNum.num 2, Status.online⟩ : ShapeRes).programa
        = jsOr (JVal.str (titleOf (partsOf "2,10,100,0,128,0,Song - Artist"))) JVal.null
    ∧ (⟨JVal.null, JVal.str "Song - Artist", JSNum.num 2, Status.online⟩ : ShapeRes).unicos
        = JSNum.num 2 := by
  have h := c7_shapeC_sample.2 "2,10,100,0,128,0,Song - Artist"
    ⟨JVal.null, JVal.str "Song - Artist", JSNum.num 2, Status.online⟩ rfl
  exact ⟨h.1, h.2.1, h.2.2 2 rfl⟩

/-- **C8**: resolution is deterministic up to the timestamp — two
invocations observing identical upstream outcomes at every endpoint
return the same HTTP status and, after blanking the timestamp,
identical envelopes (same locutor, programa, unicos, status, and
success/error shape). -/
theorem c8_deterministic (now now' : String) (resps : List Resp) :
    (GETmodel now resps).code = (GETmodel now' resps).code
  ∧ stripTs (GETmodel now resps).body = stripTs (GETmodel now' resps).body := by
  simp only [GETmodel]
  split <;> simp [stripTs]

/-- **C9** (counterexample): a 2xx response whose body parses as the
JSON value `null` does not terminate the iteration at a Shape A/B
endpoint, contrary to the claim: the property read on the null payload
throws a TypeError, which is caught, and the next candidate is tried
(here endpoint 2 then supplies the result). -/
theorem c9_null_json_continues :
    breaks (BASE ++ "/statistics?json=1") (Resp.resp 200 (.ok JVal.null) "") = false
  ∧ GETmodel "T" [Resp.resp 200 (.ok JVal.null) "",
      Resp.resp 200 (.ok (JVal.obj [("dj", JVal.str "DJ")])) "",
      Resp.fail ⟨"E", "x"⟩, Resp.fail ⟨"E", "x"⟩, Resp.fail ⟨"E", "x"⟩]
      = ⟨200, .success "T" ⟨JVal.str "DJ", JVal.str "—", JSNum.num 0, Status.offline⟩⟩ :=
  ⟨rfl, rfl⟩

/-- **C9** (amended): at the JSON endpoints a successfully parsed body
terminates the iteration unless a property read throws on a nullish
value: Shape D always breaks, Shape B breaks for every non-nullish
payload, Shape A breaks for every non-nullish payload whose selected
first stream is non-nullish, and a candidate is passed over only when
an error was thrown (transport, HTTP status, JSON parse, or nullish
property read) or when the Shape C body has fewer than 7 fields. -/
theorem c9_json_parse_terminates :
    (∀ v t, isNullish v = false →
       isNullish (streamSel v (jGetD v "streams")) = false →
       breaks (BASE ++ "/statistics?json=1") (Resp.resp 200 (.ok v) t) = true)
  ∧ (∀ v t, isNullish v = false →
       breaks (BASE ++ "/stats?sid=1&json=1") (Resp.resp 200 (.ok v) t) = true
       ∧ breaks (BASE ++ "/stats?json=1") (Resp.resp 200 (.ok v) t) = true)
  ∧ (∀ v t, breaks (BASE ++ "/status-json.xsl") (Resp.resp 200 (.ok v) t) = true)
  ∧ (∀ u r, u ∈ urls → breaks u r = false →
       (∃ e, recordsErr u r = some e)
       ∨ (u = BASE ++ "/7.html"
          ∧ ∃ code js t, r = .resp code js t ∧ (partsOf t).length < 7)) := by
  refine ⟨?_, ?_, ?_, ?_⟩
  · intro v t hv hs
    simp [breaks, attempt_url0, resOk, shapeA, hv, hs, Except.map]
  · intro v t hv
    constructor <;> simp [breaks, attempt_url1, attempt_url2, resOk, shapeB, hv, Except.map]
  · intro v t
    simp [breaks, attempt_url4, resOk, Except.map]
  · intro u r hu hbrk
    rcases r with e | ⟨code, js, t⟩
    · exact Or.inl ⟨e, rfl⟩
    · simp only [urls, List.mem_cons, List.not_mem_nil, or_false] at hu
      by_cases hok : resOk code = true
      · rcases hu with hu | hu | hu | hu | hu <;> subst hu
        · rcases js with e | j
          · exact Or.inl ⟨e, by simp [recordsErr, attempt_url0, hok, Except.map]⟩
          · rcases hsa : shapeA j with e' | res
            · exact Or.inl ⟨e', by simp [recordsErr, attempt_url0, hok, hsa, Except.map]⟩
            · exfalso
              simp [breaks, attempt_url0, hok, hsa, Except.map] at hbrk
        · rcases js with e | j
          · exact Or.inl ⟨e, by simp [recordsErr, attempt_url1, hok, Except.map]⟩
          · rcases hsb : shapeB j with e' | res
            · exact Or.inl ⟨e', by simp [recordsErr, attempt_url1, hok, hsb, Except.map]⟩
            · exfalso
              simp [breaks, attempt_url1, hok, hsb, Except.map] at hbrk
        · rcases js with e | j
          · exact Or.inl ⟨e, by simp [recordsErr, attempt_url2, hok, Except.map]⟩
          · rcases hsb : shapeB j with e' | res
            · exact Or.inl ⟨e', by simp [recordsErr, attempt_url2, hok, hsb, Except.map]⟩
            · exfalso
              simp [breaks, attempt_url2, hok, hsb, Except.map] at hbrk
        · rcases hsc : shapeC t with _ | res
          · refine Or.inr ⟨rfl, code, js, t, rfl, ?_⟩
            simp only [shapeC] at hsc
            split at hsc
            · cases hsc
            · omega
          · exfalso
            simp [breaks, attempt_url3, hok, hsc] at hbrk
        · rcases js with e | j
          · exact Or.inl ⟨e, by simp [recordsErr, attempt_url4, hok, Except.map]⟩
          · exfalso
            simp [breaks, attempt_url4, hok, Except.map] at hbrk
      · rcases hu with hu | hu | hu | hu | hu <;> subst hu <;>
          exact Or.inl ⟨⟨"Error", "HTTP " ++ toString code⟩,
            by simp [recordsErr, attempt_url0, attempt_url1, attempt_url2,
              attempt_url3, attempt_url4, hok]⟩

/-- **C9** witness: concrete instances of all four amended clauses —
payloads with none of the expected fields still break at each JSON
endpoint, and a short Shape C body is passed over without an error. -/
theorem c9_json_parse_terminates_witness :
    breaks (BASE ++ "/statistics?json=1") (Resp.resp 200 (.ok (JVal.obj [])) "") = true
  ∧ breaks (BASE ++ "/stats?json=1") (Resp.resp 200 (.ok (JVal.num 7)) "") = true
  ∧ breaks (BASE ++ "/status-json.xsl") (Resp.resp 200 (.ok JVal.null) "") = true
  ∧ ((∃ e, recordsErr (BASE ++ "/7.html") (Resp.resp 200 (.ok JVal.null) "1,2") = some e)
      ∨ (BASE ++ "/7.html" = BASE ++ "/7.html"
         ∧ ∃ code js t, (Resp.resp 200 (.ok JVal.null) "1,2" : Resp) = .resp code js t
            ∧ (partsOf t).length < 7)) :=
  ⟨c9_json_parse_terminates.1 (JVal.obj []) "" rfl rfl,
   (c9_json_parse_terminates.2.1 (JVal.num 7) "" rfl).2,
   c9_json_parse_terminates.2.2.1 JVal.null "",
   c9_json_parse_terminates.2.2.2 (BASE ++ "/7.html") (Resp.resp 200 (.ok JVal.null) "1,2")
     (by simp [urls]) rfl⟩

/-- The output boundary `x || "—"` can never produce the empty string:
a falsy resolved value (including the empty string) becomes the
placeholder, and a truthy string is non-empty. -/
theorem jsOr_dash_ne_empty (v : JVal) : jsOr v (JVal.str "—") ≠ JVal.str "" := by
  unfold jsOr
  split
  case isTrue ht =>
    intro h
    subst h
    simp [truthy] at ht
  case isFalse hf =>
    intro h
    simp at h

/-- **C10**: in every success envelope `locutor` and `programa` are
never the empty string: an empty-string announcer or program resolved
from upstream is replaced by the placeholder "—" at the output boundary
(`locutor || "—"`, `programa || "—"`), since the empty string is falsy. -/
theorem c10_no_empty_output :
    (∀ st, st.locutor = JVal.str "" → (renderData st).locutor = JVal.str "—")
  ∧ (∀ st, st.programa = JVal.str "" → (renderData st).programa = JVal.str "—")
  ∧ (∀ now resps ts d, GETmodel now resps = ⟨200, Envelope.success ts d⟩ →
      d.locutor ≠ JVal.str "" ∧ d.programa ≠ JVal.str "") := by
  refine ⟨?_, ?_, ?_⟩
  · intro st h
    show jsOr st.locutor (JVal.str "—") = JVal.str "—"
    rw [h]
    rfl
  · intro st h
    show jsOr st.programa (JVal.str "—") = JVal.str "—"
    rw [h]
    rfl
  · intro now resps ts d h
    simp only [GETmodel] at h
    split at h
    · simp at h
    · simp only [HttpResp.mk.injEq, Envelope.success.injEq] at h
      rw [← h.2.2]
      exact ⟨jsOr_dash_ne_empty _, jsOr_dash_ne_empty _⟩

/-- **C10** witness: a loop state carrying empty-string announcer and
program renders both as the placeholder, and the concrete success
envelope of the Shape C sample has non-empty `locutor`/`programa`. -/
theorem c10_no_empty_output_witness :
    (renderData ⟨JVal.str "", JVal.str "", none, Status.offline, none⟩).locutor = JVal.str "—"
  ∧ (renderData ⟨JVal.str "", JVal.str "", none, Status.offline, none⟩).programa = JVal.str "—"
  ∧ ((⟨JVal.str "—", JVal.str "Song - Artist", JSNum.num 2, Status.online⟩ : RData).locutor
        ≠ JVal.str ""
     ∧ (⟨JVal.str "—", JVal.str "Song - Artist", JSNum.num 2, Status.online⟩ : RData).programa
        ≠ JVal.str "") :=
  ⟨c10_no_empty_output.1 ⟨JVal.str "", JVal.str "", none, Status.offline, none⟩ rfl,
   c10_no_empty_output.2.1 ⟨JVal.str "", JVal.str "", none, Status.offline, none⟩ rfl,
   c10_no_empty_output.2.2 "T"
     [Resp.fail ⟨"E", "a"⟩, Resp.fail ⟨"E", "b"⟩, Resp.fail ⟨"E", "c"⟩,
      Resp.resp 200 (.error ⟨"S", "x"⟩) "2,10,100,0,128,0,Song - Artist",
      Resp.fail ⟨"E", "d"⟩] "T"
     ⟨JVal.str "—", JVal.str "Song - Artist", JSNum.num 2, Status.online⟩ rfl⟩

end HlivePlayer
